import Mathlib

/- Shallow embedding of the lychee browser client's session-synchronization
   engine (frontend/src/lib/sessions.ts), together with the timeline
   segmenter of the page component (src/unnamed/part_004) and a
   spec-modelled stream assembler.  JavaScript `Set`s are modelled as lists
   with membership-respecting insertion/removal, `localStorage` as an
   association list, timers as a list of pending (handle, delay) pairs, and
   `Array.prototype.sort` as a comparison sort. -/

inductive ChatRole
  | user
  | assistant
  | system
deriving DecidableEq, Repr

/-- Content blocks of a Claude message.  `tool_use` keeps only the id and
name (its `input` payload is opaque to every function modelled here);
unknown block shapes are collapsed to `other`. -/
inductive ContentBlock
  | text (s : String)
  | tool_use (id name : String)
  | tool_result (tool_use_id : String)
  | other (tag : String)
deriving DecidableEq, Repr

/-- `string | ContentBlock[]`, the two shapes of `ChatMessage.content`. -/
inductive MessageContent
  | str (s : String)
  | blocks (bs : List ContentBlock)
deriving DecidableEq, Repr

structure ChatMessage where
  role : ChatRole
  content : MessageContent
  isSidechain : Bool := false
  uuid : Option String := none
  textLengthAtTools : Option Nat := none
deriving DecidableEq, Repr

structure SessionInfo where
  lychee_id : String
  claude_session_id : Option String := none
  created_at : Nat := 0
  last_active : Nat := 0
  isStreaming : Bool := false
  is_worktree : Bool := false
deriving DecidableEq, Repr

structure RepoInfo where
  name : String
  path : String
  sessions : List SessionInfo := []
deriving DecidableEq, Repr

/-- `"idle" | "connecting" | "open" | "closed" | "error"`; the `"open"`
value is rendered `opened` because `open` is a Lean keyword. -/
inductive ConnectionStatus
  | idle
  | connecting
  | opened
  | closed
  | error
deriving DecidableEq, Repr

def isTextBlock : ContentBlock → Bool
  | .text _ => true
  | _ => false

def isToolUseBlock : ContentBlock → Bool
  | .tool_use _ _ => true
  | _ => false

def isToolResultBlock : ContentBlock → Bool
  | .tool_result _ => true
  | _ => false

/-- The text of the block, `block.text || ""` on non-text blocks. -/
def blockText : ContentBlock → String
  | .text s => s
  | _ => ""

/-- `content.filter(b => b.type === "text").map(b => b.text || "").join("")`. -/
def joinTexts (bs : List ContentBlock) : String :=
  String.join ((bs.filter isTextBlock).map blockText)

/-- Injective textual encoding standing in for `JSON.stringify` on a block
array; it is only ever used as a comparison key. -/
def stringifyBlock : ContentBlock → String
  | .text s => "(text:" ++ s ++ ")"
  | .tool_use i n => "(tool_use:" ++ i ++ ":" ++ n ++ ")"
  | .tool_result i => "(tool_result:" ++ i ++ ")"
  | .other t => "(other:" ++ t ++ ")"

def stringifyBlocks (bs : List ContentBlock) : String :=
  "[" ++ String.intercalate "," (bs.map stringifyBlock) ++ "]"

/-- `typeof content === "string" ? content : JSON.stringify(content)`. -/
def contentKey : MessageContent → String
  | .str s => s
  | .blocks bs => stringifyBlocks bs

/-- `typeof content === "string" ? content : ""`. -/
def contentOrEmpty : MessageContent → String
  | .str s => s
  | .blocks _ => ""

/-- `String.prototype.startsWith`, modelled on character lists so that it
reduces inside the kernel. -/
def strStartsWith (s pre : String) : Bool :=
  pre.toList.isPrefixOf s.toList

/-- `msg.uuid?.startsWith("temp-") ?? false`. -/
def isTempMsg (m : ChatMessage) : Bool :=
  match m.uuid with
  | some u => strStartsWith u "temp-"
  | none => false

/-- `String.prototype.trim`, modelled on character lists so that it
reduces inside the kernel. -/
def jsTrim (s : String) : String :=
  String.mk (((s.toList.dropWhile Char.isWhitespace).reverse.dropWhile Char.isWhitespace).reverse)

/-- Stable insertion used by the comparison sort. -/
def insertLe {α : Type} (le : α → α → Bool) (a : α) : List α → List α
  | [] => [a]
  | b :: bs => if le a b then a :: b :: bs else b :: insertLe le a bs

/-- `Array.prototype.sort` modelled as an insertion sort over the given
boolean comparison. -/
def sortLe {α : Type} (le : α → α → Bool) : List α → List α
  | [] => []
  | a :: as => insertLe le a (sortLe le as)

structure SessionsState where
  repos : List RepoInfo
  activeRepoPath : Option String
  currentSessionId : Option String
  creatingSessionForRepo : Option String
  isCreatingSession : Bool
  messages : List ChatMessage
  activeStreams : List String
  connectionStatus : ConnectionStatus
  selectedModel : String
deriving DecidableEq, Repr

def INITIAL_STATE : SessionsState :=
  { repos := []
    activeRepoPath := none
    currentSessionId := none
    creatingSessionForRepo := none
    isCreatingSession := false
    messages := []
    activeStreams := []
    connectionStatus := .idle
    selectedModel := "claude-sonnet-4-5-20250929" }

/-- The service's whole observable environment: the store snapshot, the
durable `localStorage` records, and the pending reconnect timers (pairs of
a handle and a delay in milliseconds) together with the service's stored
timer handle. -/
structure World where
  state : SessionsState
  storage : List (String × String)
  reconnectTimers : List (Nat × Nat)
  reconnectTimeout : Option Nat
  nextTimerId : Nat
deriving DecidableEq, Repr

def INITIAL_WORLD : World :=
  { state := INITIAL_STATE
    storage := []
    reconnectTimers := []
    reconnectTimeout := none
    nextTimerId := 0 }

/-- Inbound relay events.  Fields that are optional in the TypeScript union
are `Option`s; the opaque `data` of `claude_stream` is dropped because the
current handler ignores the whole event. -/
inductive RelayInboundMessage
  | client_connected (repo_path repo_name : String)
  | client_disconnected (repo_path : String)
  | sessions_list (repo_path : String) (sessions : Option (List SessionInfo))
      (active_session_ids : Option (List String))
  | session_created (repo_path lychee_id : String)
  | session_history (repo_path lychee_id : String) (messages : Option (List ChatMessage))
  | session_update (repo_path lychee_id : String) (new_entries : Option (List ChatMessage))
  | stream_start (repo_path lychee_id : String)
  | stream_end (repo_path lychee_id : String)
  | claude_stream (repo_path lychee_id : String)
  | client_count (count : Nat)
  | error (repo_path : Option String) (message : String)
deriving DecidableEq, Repr

inductive RelayOutboundMessage
  | register_browser
  | list_sessions (repo_path : String)
  | create_session (repo_path : String)
  | create_worktree_session (repo_path : String)
  | load_session (repo_path lychee_id : String)
  | send_message (repo_path : String) (lychee_id : Option String) (content model : String)
deriving DecidableEq, Repr

def pendingKey (sid : String) : String := "pending-message-" ++ sid

/-- `localStorage.getItem("pending-message-" + sid)`. -/
def lookupPending (st : List (String × String)) (sid : String) : Option String :=
  (st.find? fun kv => kv.1 == pendingKey sid).map (fun kv => kv.2)

/-- `localStorage.removeItem("pending-message-" + sid)`. -/
def removePending (st : List (String × String)) (sid : String) : List (String × String) :=
  st.filter fun kv => kv.1 != pendingKey sid

/-- `localStorage.setItem("pending-message-" + sid, text)`. -/
def setPending (st : List (String × String)) (sid text : String) : List (String × String) :=
  (pendingKey sid, text) :: removePending st sid

/-- `new Set(prev).add(id)` on the insertion-ordered list model of a Set. -/
def addStream (l : List String) (id : String) : List String :=
  if l.contains id then l else l ++ [id]

/-- `set.delete(id)` on the list model of a Set. -/
def removeStream (l : List String) (id : String) : List String :=
  l.filter fun x => x != id

def updateStreamingFlags (repos : List RepoInfo) (activeStreams : List String) : List RepoInfo :=
  repos.map fun repo =>
    { repo with sessions := repo.sessions.map fun session =>
        { session with isStreaming := activeStreams.contains session.lychee_id } }

def selectSession (w : World) (repoPath lycheeId : String) : World × List RelayOutboundMessage :=
  ({ w with state := { w.state with
       activeRepoPath := some repoPath
       currentSessionId := some lycheeId
       messages := []
       isCreatingSession := false
       creatingSessionForRepo := none } },
   [.load_session repoPath lycheeId])

/-- `sendChatMessage(content)`.  `fresh` stands for the
`Date.now() + Math.random()` suffix of the generated temp uuid.  The JS
falsiness of `""` in the guard is made explicit; the returned list holds
the messages put on the wire. -/
def sendChatMessage (fresh content : String) (w : World) : World × List RelayOutboundMessage :=
  let trimmed := jsTrim content
  if trimmed == "" then (w, [])
  else
    match w.state.activeRepoPath, w.state.currentSessionId with
    | some activeRepoPath, some currentSessionId =>
      if activeRepoPath == "" || currentSessionId == "" ||
          w.state.activeStreams.contains currentSessionId then (w, [])
      else
        let userMessage : ChatMessage :=
          { role := .user, content := .str trimmed, uuid := some ("temp-" ++ fresh) }
        ({ w with
            state := { w.state with messages := w.state.messages ++ [userMessage] }
            storage := setPending w.storage currentSessionId trimmed },
         [.send_message activeRepoPath (some currentSessionId) trimmed w.state.selectedModel])
    | _, _ => (w, [])

/-- The `withoutTempDupes` filter of the `session_update` case. -/
def dropTempUsers (hasUserMessage : Bool) (msgs : List ChatMessage) : List ChatMessage :=
  msgs.filter fun existing =>
    if !(isTempMsg existing) then true
    else if hasUserMessage && existing.role == .user then false
    else true

/-- The `existingContents` set of the `session_update` case: content keys
of the confirmed (non-temp) user messages. -/
def confirmedUserKeys (msgs : List ChatMessage) : List String :=
  (msgs.filter fun m => m.role == .user && !(isTempMsg m)).map fun m => contentKey m.content

/-- The `finalEntries` dedup predicate of the `session_update` case. -/
def keepEntry (existingContents : List String) (entry : ChatMessage) : Bool :=
  if entry.role != .user then true
  else !(existingContents.contains (contentKey entry.content))

/-- The `session_update` case of `handleInboundMessage`, including its
`localStorage` cleanup. -/
def sessionUpdateW (w : World) (lycheeId : String) (newEntries : List ChatMessage) : World :=
  if w.state.currentSessionId = some lycheeId then
    let hasUserMessage := newEntries.any fun e => e.role == .user
    let withoutTempDupes := dropTempUsers hasUserMessage w.state.messages
    let storage1 := if hasUserMessage then removePending w.storage lycheeId else w.storage
    let finalEntries := newEntries.filter (keepEntry (confirmedUserKeys withoutTempDupes))
    { w with
        state := { w.state with messages := withoutTempDupes ++ finalEntries }
        storage := storage1 }
  else w

/-- The `session_history` case of `handleInboundMessage`, including its
pending-message recovery; the JS falsiness of an empty stored string is
made explicit. -/
def sessionHistoryW (w : World) (lycheeId : String) (loadedMessages : List ChatMessage) : World :=
  if w.state.currentSessionId = some lycheeId then
    match lookupPending w.storage lycheeId with
    | some pendingMessage =>
      if pendingMessage == "" then
        { w with state := { w.state with messages := loadedMessages } }
      else
        let isPendingInFile := loadedMessages.any fun msg =>
          msg.role == .user && contentOrEmpty msg.content == pendingMessage
        if isPendingInFile then
          { w with
              state := { w.state with messages := loadedMessages }
              storage := removePending w.storage lycheeId }
        else
          { w with state := { w.state with messages := loadedMessages ++
              [{ role := .user, content := .str pendingMessage,
                 uuid := some ("temp-pending-" ++ lycheeId) }] } }
    | none => { w with state := { w.state with messages := loadedMessages } }
  else w

/-- `handleInboundMessage`, as a transition on the world returning the
outbound messages it sends. -/
def handleInbound (w : World) (message : RelayInboundMessage) : World × List RelayOutboundMessage :=
  match message with
  | .client_connected repo_path repo_name =>
      let s := w.state
      let s1 :=
        if s.repos.any fun repo => repo.path == repo_path then s
        else { s with repos := (sortLe (fun a b => decide (a.name ≤ b.name))
          (s.repos ++ [{ name := repo_name, path := repo_path, sessions := [] }])) }
      ({ w with state := s1 }, [.list_sessions repo_path])
  | .client_disconnected repo_path =>
      let s := w.state
      let wasActive := s.activeRepoPath == some repo_path
      ({ w with state := { s with
          repos := s.repos.filter fun repo => repo.path != repo_path
          activeRepoPath := if wasActive then none else s.activeRepoPath
          currentSessionId := if wasActive then none else s.currentSessionId
          messages := if wasActive then [] else s.messages } }, [])
  | .sessions_list repo_path sessionsOpt activeIdsOpt =>
      let sessions := sessionsOpt.getD []
      let activeSessionIds := activeIdsOpt.getD []
      let s := w.state
      let activeStreams := activeSessionIds.foldl addStream s.activeStreams
      ({ w with state := { s with
          activeStreams := activeStreams
          repos := s.repos.map fun repo =>
            if repo.path == repo_path then
              { repo with sessions :=
                  ((sortLe (fun a b => decide (b.last_active ≤ a.last_active)) sessions).map
                    (fun session =>
                      { session with isStreaming := activeStreams.contains session.lychee_id })) }
            else repo } }, [])
  | .session_created repo_path lychee_id =>
      let w1 := { w with state := { w.state with
        isCreatingSession := false, creatingSessionForRepo := none } }
      let step := selectSession w1 repo_path lychee_id
      (step.1, .list_sessions repo_path :: step.2)
  | .session_history _ lychee_id messagesOpt =>
      (sessionHistoryW w lychee_id (messagesOpt.getD []), [])
  | .session_update _ lychee_id entriesOpt =>
      (sessionUpdateW w lychee_id (entriesOpt.getD []), [])
  | .stream_start _ lychee_id =>
      let s := w.state
      let activeStreams := addStream s.activeStreams lychee_id
      ({ w with state := { s with
          activeStreams := activeStreams
          repos := updateStreamingFlags s.repos activeStreams } }, [])
  | .stream_end _ lychee_id =>
      let s := w.state
      let activeStreams := removeStream s.activeStreams lychee_id
      ({ w with state := { s with
          activeStreams := activeStreams
          repos := updateStreamingFlags s.repos activeStreams } }, [])
  | .error _ msg =>
      ({ w with state := { w.state with
          messages := w.state.messages ++ [{ role := .system, content := .str msg }]
          isCreatingSession := false
          creatingSessionForRepo := none } }, [])
  | .claude_stream _ _ => (w, [])
  | .client_count _ => (w, [])

def runInbound (w : World) (events : List RelayInboundMessage) : World :=
  events.foldl (fun acc e => (handleInbound acc e).1) w

/-- `handleDisconnect(status)`: reset the store to the initial state with
the given status, cancel the tracked reconnect timer and schedule a fresh
one after 1500 ms. -/
def handleDisconnect (status : ConnectionStatus) (w : World) : World :=
  let cleared :=
    match w.reconnectTimeout with
    | some h => w.reconnectTimers.filter fun t => t.1 != h
    | none => w.reconnectTimers
  { state := { INITIAL_STATE with connectionStatus := status }
    storage := w.storage
    reconnectTimers := cleared ++ [(w.nextTimerId, 1500)]
    reconnectTimeout := some w.nextTimerId
    nextTimerId := w.nextTimerId + 1 }

/-- All pending reconnect timers are the one tracked by the service (so
there is at most one). -/
def timerInv (w : World) : Prop :=
  w.reconnectTimers.length ≤ 1 ∧ ∀ t ∈ w.reconnectTimers, some t.1 = w.reconnectTimeout

def isStreamEvt : RelayInboundMessage → Bool
  | .stream_start _ _ => true
  | .stream_end _ _ => true
  | _ => false

def streamEvtFor (sid : String) (acc : Option Bool) : RelayInboundMessage → Option Bool
  | .stream_start _ lychee_id => if lychee_id = sid then some true else acc
  | .stream_end _ lychee_id => if lychee_id = sid then some false else acc
  | _ => acc

/-- `some true` when the most recent stream event for `sid` in the list is
a `stream_start`, `some false` when it is a `stream_end`, `none` when the
list holds no stream event for `sid`. -/
def lastStreamEvt (events : List RelayInboundMessage) (sid : String) : Option Bool :=
  events.foldl (streamEvtFor sid) none

namespace StreamAssembler

/-- Modelled from the spec: the tool-aware Stream Assembler of §4.5.  The
repository's own sources only contain a text-only assembler
(`handleClaudeStream` in src/unnamed/part_000, which drops tool blocks and
never records a snapshot) and the consumer of the snapshot
(`processMessages` in src/unnamed/part_004 reads `msg.textLengthAtTools`);
the producer of `textLengthAtTools` and of the merged tool blocks is not
in the sources, so it is modelled from §4.5 and the pinned scenario of §8:
text deltas are concatenated into a single running text block, tool blocks
are appended unless one with the same invocation id is already present,
other blocks pass through, and the text length observed when the first
tool block of the exchange arrives (before that delta's own text applies)
is snapshotted into `textLengthAtTools`. -/
inductive StreamDelta
  | init
  | system
  | assistant (blocks : List ContentBlock)
  | result
  | error (message : String)
deriving DecidableEq, Repr

def toolId : ContentBlock → Option String
  | .tool_use i _ => some i
  | _ => none

def msgBlocks (m : ChatMessage) : List ContentBlock :=
  match m.content with
  | .blocks bs => bs
  | .str s => [.text s]

/-- Modelled from the spec: merge one assistant delta's blocks into the
growing assistant message (§4.5). -/
def applyAssistantBlocks (m : ChatMessage) (bs : List ContentBlock) : ChatMessage :=
  let old := msgBlocks m
  let curText := joinTexts old
  let oldRest := old.filter fun b => !(isTextBlock b)
  let deltaText := joinTexts bs
  let deltaRest := bs.filter fun b => !(isTextBlock b)
  let snap :=
    match m.textLengthAtTools with
    | some n => some n
    | none => if bs.any isToolUseBlock then some curText.length else none
  let newRest := deltaRest.filter fun b =>
    match toolId b with
    | some i => !(oldRest.any fun ob => toolId ob == some i)
    | none => true
  { m with
      content := .blocks (ContentBlock.text (curText ++ deltaText) :: (oldRest ++ newRest))
      textLengthAtTools := snap }

def emptyAssistant : ChatMessage := { role := .assistant, content := .blocks [] }

/-- Modelled from the spec: fold one streaming delta for the selected
session into its timeline (§4.5 — an assistant delta merges into the last
message when that is an assistant message, otherwise appends a new one; an
error delta appends a synthetic system message). -/
def applyDelta (msgs : List ChatMessage) : StreamDelta → List ChatMessage
  | .init => msgs
  | .system => msgs
  | .assistant bs =>
      match msgs.getLast? with
      | some last =>
          if last.role == .assistant then msgs.dropLast ++ [applyAssistantBlocks last bs]
          else msgs ++ [applyAssistantBlocks emptyAssistant bs]
      | none => msgs ++ [applyAssistantBlocks emptyAssistant bs]
  | .result => msgs
  | .error em => msgs ++ [{ role := .system, content := .str ("Error: " ++ em) }]

def runDeltas (deltas : List StreamDelta) : List ChatMessage :=
  deltas.foldl applyDelta []

end StreamAssembler

namespace Part004

/-- Worklog entries of the timeline segmenter (src/unnamed/part_004). -/
structure WorklogItem where
  tool : ContentBlock
  precedingContext : Option String
  originalMessage : ChatMessage
deriving DecidableEq, Repr

inductive PMType
  | user
  | assistantText
  | worklog
  | system
deriving DecidableEq, Repr

structure ProcessedMessage where
  id : String
  type : PMType
  content : String
  worklogItems : List WorklogItem := []
  originalMessage : Option ChatMessage := none
deriving DecidableEq, Repr

/-- `extractMessageContent` of src/unnamed/part_004. -/
def extractMessageContent (content : MessageContent) : String :=
  match content with
  | .str s => s
  | .blocks bs => joinTexts bs

/-- `extractToolCalls` of src/unnamed/part_004. -/
def extractToolCalls (content : MessageContent) : List ContentBlock :=
  match content with
  | .blocks bs => bs.filter isToolUseBlock
  | .str _ => []

/-- `isToolResultMessage` of src/unnamed/part_004. -/
def isToolResultMessage (msg : ChatMessage) : Bool :=
  msg.role == .user &&
    (match msg.content with
     | .blocks bs => bs.length > 0 && bs.all isToolResultBlock
     | .str _ => false)

/-- One exchange (the body of the assistant branch of `processMessages`,
src/unnamed/part_004 lines 90-242): the single-message streaming branch
splits the text at the `textLengthAtTools` snapshot, the multi-message
branch walks the run collecting tool blocks with their preceding text. -/
def processExchange (exchangeMessages : List ChatMessage) (exchangeId : String) :
    List ProcessedMessage :=
  match exchangeMessages with
  | [] => []
  | [singleMsg] =>
    (match singleMsg.content with
     | .blocks content =>
        let hasTools := content.any isToolUseBlock
        if !hasTools then
          let allText := joinTexts content
          if jsTrim allText != "" then
            [{ id := exchangeId ++ "-text", type := .assistantText, content := allText,
               originalMessage := some singleMsg }]
          else []
        else
          let allText := joinTexts content
          let toolBlocks := content.filter isToolUseBlock
          let splitPoint := singleMsg.textLengthAtTools.getD 0
          let textBeforeTools := if splitPoint > 0 then allText.take splitPoint else allText
          let textAfterTools := if splitPoint > 0 then allText.drop splitPoint else ""
          (if jsTrim textBeforeTools != "" then
            [{ id := exchangeId ++ "-initial", type := .assistantText,
               content := textBeforeTools, originalMessage := some singleMsg }]
           else []) ++
          (if toolBlocks.length > 0 then
            [{ id := exchangeId ++ "-worklog", type := .worklog, content := "",
               worklogItems := toolBlocks.map fun tool =>
                 { tool := tool
                   precedingContext := if textBeforeTools == "" then none else some textBeforeTools
                   originalMessage := singleMsg } }]
           else []) ++
          (if jsTrim textAfterTools != "" then
            [{ id := exchangeId ++ "-final", type := .assistantText,
               content := textAfterTools, originalMessage := some singleMsg }]
           else [])
     | .str s =>
        if jsTrim s != "" then
          [{ id := exchangeId ++ "-text", type := .assistantText, content := s,
             originalMessage := some singleMsg }]
        else [])
  | firstMsg :: second :: more =>
    let exchangeTail := second :: more
    let lastMsg := exchangeTail.getLastD firstMsg
    let firstText := extractMessageContent firstMsg.content
    let lastText := extractMessageContent lastMsg.content
    let initialItems :=
      if jsTrim firstText != "" then
        [{ id := exchangeId ++ "-initial", type := .assistantText, content := firstText,
           originalMessage := some firstMsg : ProcessedMessage }]
      else []
    let startCtx : Option String := if firstText == "" then none else some firstText
    let walk := (firstMsg :: exchangeTail).enum.foldl
      (fun (acc : Option String × List WorklogItem) je =>
        let j := je.1
        let exMsg := je.2
        let msgText := extractMessageContent exMsg.content
        let tools := extractToolCalls exMsg.content
        let ctx := if decide (j > 0) && jsTrim msgText != "" then some msgText else acc.1
        let items :=
          if decide (j > 0) || jsTrim firstText == "" then
            acc.2 ++ tools.map fun tool =>
              { tool := tool, precedingContext := ctx, originalMessage := exMsg }
          else acc.2
        (ctx, items))
      (startCtx, [])
    let worklogItems := walk.2
    let finalText :=
      if jsTrim lastText != "" && decide ((firstMsg :: exchangeTail).length > 1) &&
          lastText != firstText then some lastText
      else none
    initialItems ++
    (if worklogItems.length > 0 then
      [{ id := exchangeId ++ "-worklog", type := .worklog, content := "",
         worklogItems := worklogItems }]
     else []) ++
    (match finalText with
     | some t =>
        [{ id := exchangeId ++ "-final", type := .assistantText, content := t,
           originalMessage := some lastMsg }]
     | none => [])

/-- The message walk of `processMessages` (src/unnamed/part_004): user and
system messages become standalone items, a run of consecutive assistant
messages becomes one exchange.  The while loop is rendered with a fuel
parameter (structural recursion, so it reduces inside the kernel); every
step consumes at least one message and exactly one unit of fuel, so fuel
equal to the list length is always enough. -/
def goProcess : Nat → List ChatMessage → Nat → Nat → List ProcessedMessage
  | 0, _, _, _ => []
  | _ + 1, [], _, _ => []
  | fuel + 1, msg :: rest, i, exchangeCounter =>
    match msg.role with
    | .user =>
        { id := "user-" ++ toString i, type := .user,
          content := extractMessageContent msg.content,
          originalMessage := some msg } :: goProcess fuel rest (i + 1) exchangeCounter
    | .system =>
        { id := "system-" ++ toString i, type := .system,
          content := extractMessageContent msg.content,
          originalMessage := some msg } :: goProcess fuel rest (i + 1) exchangeCounter
    | .assistant =>
        let run := msg :: rest.takeWhile (fun x => x.role == .assistant)
        let rest1 := rest.dropWhile (fun x => x.role == .assistant)
        processExchange run ("exchange-" ++ toString exchangeCounter) ++
          goProcess fuel rest1 (i + run.length) (exchangeCounter + 1)

/-- `processMessages` of src/unnamed/part_004. -/
def processMessages (messages : List ChatMessage) : List ProcessedMessage :=
  let mainMessages := messages.filter fun m => !m.isSidechain && !(isToolResultMessage m)
  goProcess mainMessages.length mainMessages 0 0

end Part004

/- ------------------------------------------------------------------ -/
/- Helper lemmas                                                      -/
/- ------------------------------------------------------------------ -/

theorem contains_iff (l : List String) (x : String) : l.contains x = true ↔ x ∈ l :=
  List.elem_iff

theorem mem_addStream (l : List String) (id x : String) :
    x ∈ addStream l id ↔ x ∈ l ∨ x = id := by
  unfold addStream
  split
  · rename_i h
    have hid : id ∈ l := (contains_iff l id).1 h
    constructor
    · exact Or.inl
    · rintro (hx | rfl)
      · exact hx
      · exact hid
  · simp [List.mem_append]

theorem mem_removeStream (l : List String) (id x : String) :
    x ∈ removeStream l id ↔ x ∈ l ∧ x ≠ id := by
  simp [removeStream, List.mem_filter, bne_iff_ne]

theorem mem_foldl_addStream (ids : List String) (l : List String) (x : String) :
    x ∈ ids.foldl addStream l ↔ x ∈ l ∨ x ∈ ids := by
  induction ids generalizing l with
  | nil => simp
  | cons i rest ih =>
    rw [List.foldl_cons, ih, mem_addStream]
    simp [List.mem_cons]
    tauto

theorem strStartsWith_append (p s : String) : strStartsWith (p ++ s) p = true := by
  unfold strStartsWith
  rw [List.isPrefixOf_iff_prefix]
  have h : (p ++ s).toList = p.toList ++ s.toList := by
    simp [String.toList, String.data_append]
  rw [h]
  exact List.prefix_append _ _

theorem lookupPending_set (st : List (String × String)) (sid v : String) :
    lookupPending (setPending st sid v) sid = some v := by
  simp [lookupPending, setPending, List.find?_cons_of_pos]

theorem lookupPending_remove (st : List (String × String)) (sid : String) :
    lookupPending (removePending st sid) sid = none := by
  unfold lookupPending removePending
  rw [List.find?_eq_none.2, Option.map_none']
  intro kv hkv
  have h2 := (List.mem_filter.1 hkv).2
  rw [bne_iff_ne] at h2
  simp [h2]

theorem streamFold_acc (sid : String) (evts : List RelayInboundMessage) :
    ∀ (a : Option Bool),
      evts.foldl (streamEvtFor sid) a =
        (match evts.foldl (streamEvtFor sid) none with
         | some c => some c
         | none => a) := by
  induction evts with
  | nil => intro a; rfl
  | cons e rest ih =>
    intro a
    rw [List.foldl_cons, List.foldl_cons, ih (streamEvtFor sid a e),
      ih (streamEvtFor sid none e)]
    cases hr : rest.foldl (streamEvtFor sid) none with
    | some c => rfl
    | none =>
      cases e <;> simp only [streamEvtFor] <;> split <;> rfl

theorem step_start_mem (w : World) (rp lid x : String) :
    x ∈ ((handleInbound w (.stream_start rp lid)).1).state.activeStreams ↔
      x ∈ w.state.activeStreams ∨ x = lid := by
  simp only [handleInbound]
  exact mem_addStream _ _ _

theorem step_end_mem (w : World) (rp lid x : String) :
    x ∈ ((handleInbound w (.stream_end rp lid)).1).state.activeStreams ↔
      x ∈ w.state.activeStreams ∧ x ≠ lid := by
  simp only [handleInbound]
  exact mem_removeStream _ _ _

theorem streams_membership (sid : String) (evts : List RelayInboundMessage) :
    ∀ (w : World), (∀ e ∈ evts, isStreamEvt e = true) →
      (sid ∈ (runInbound w evts).state.activeStreams ↔
        (lastStreamEvt evts sid = some true ∨
          (lastStreamEvt evts sid = none ∧ sid ∈ w.state.activeStreams))) := by
  induction evts with
  | nil =>
    intro w _
    simp [runInbound, lastStreamEvt]
  | cons e rest ih =>
    intro w h
    have he : isStreamEvt e = true := h e (by simp)
    have hrest : ∀ x ∈ rest, isStreamEvt x = true := fun x hx => h x (by simp [hx])
    have hrun : runInbound w (e :: rest) = runInbound ((handleInbound w e).1) rest := rfl
    have hlast : lastStreamEvt (e :: rest) sid =
        (match lastStreamEvt rest sid with
         | some c => some c
         | none => streamEvtFor sid none e) := by
      show (e :: rest).foldl (streamEvtFor sid) none = _
      rw [List.foldl_cons, streamFold_acc sid rest (streamEvtFor sid none e)]
      rfl
    rw [hrun, ih _ hrest, hlast]
    cases e with
    | stream_start rp lid =>
      by_cases hid : lid = sid
      · have hmem : sid ∈ ((handleInbound w (.stream_start rp sid)).1).state.activeStreams := by
          rw [step_start_mem]
          exact Or.inr rfl
        cases hr : lastStreamEvt rest sid with
        | none => simp [hr, streamEvtFor, hid, hmem]
        | some b => cases b <;> simp [hr, streamEvtFor, hid, hmem]
      · have hmem : sid ∈ ((handleInbound w (.stream_start rp lid)).1).state.activeStreams ↔
            sid ∈ w.state.activeStreams := by
          rw [step_start_mem]
          constructor
          · rintro (hx | hx)
            · exact hx
            · exact absurd hx.symm hid
          · exact Or.inl
        cases hr : lastStreamEvt rest sid with
        | none => simp [hr, streamEvtFor, hid, hmem]
        | some b => simp [hr, streamEvtFor, hid, hmem]
    | stream_end rp lid =>
      by_cases hid : lid = sid
      · have hmem : sid ∉ ((handleInbound w (.stream_end rp sid)).1).state.activeStreams := by
          rw [step_end_mem]
          rintro ⟨_, hne⟩
          exact hne rfl
        cases hr : lastStreamEvt rest sid with
        | none => simp [hr, streamEvtFor, hid, hmem]
        | some b => cases b <;> simp [hr, streamEvtFor, hid, hmem]
      · have hmem : sid ∈ ((handleInbound w (.stream_end rp lid)).1).state.activeStreams ↔
            sid ∈ w.state.activeStreams := by
          rw [step_end_mem]
          constructor
          · exact fun hx => hx.1
          · exact fun hx => ⟨hx, fun hEq => hid hEq.symm⟩
        cases hr : lastStreamEvt rest sid with
        | none => simp [hr, streamEvtFor, hid, hmem]
        | some b => simp [hr, streamEvtFor, hid, hmem]
    | client_connected rp rn => simp [isStreamEvt] at he
    | client_disconnected rp => simp [isStreamEvt] at he
    | sessions_list rp so io => simp [isStreamEvt] at he
    | session_created rp lid => simp [isStreamEvt] at he
    | session_history rp lid ms => simp [isStreamEvt] at he
    | session_update rp lid es => simp [isStreamEvt] at he
    | claude_stream rp lid => simp [isStreamEvt] at he
    | client_count n => simp [isStreamEvt] at he
    | error rp m => simp [isStreamEvt] at he

/- ------------------------------------------------------------------ -/
/- Claim theorems                                                     -/
/- ------------------------------------------------------------------ -/

/-- C2 (counterexample): the claim's iff does not hold over arbitrary
inbound sequences — handling a single `sessions_list` declaring `"s"`
active puts `"s"` into `activeStreams` although the sequence holds no
stream event for `"s"` at all (so its most recent stream event is not an
unmatched `stream_start`). -/
theorem c2_counterexample :
    ¬ (("s" ∈ (runInbound INITIAL_WORLD
          [.sessions_list "r" (some []) (some ["s"])]).state.activeStreams) ↔
        lastStreamEvt [.sessions_list "r" (some []) (some ["s"])] "s" = some true) := by
  decide

/-- C2 (amended): restricted to sequences of `stream_start`/`stream_end`
events handled from the initial state, a session id is in `activeStreams`
iff the most recent stream event for it is a `stream_start`; and the
`sessions_list` handler only unions its `active_session_ids` into
`activeStreams`, never removing a member. -/
theorem c2_streams_iff_and_sessions_list_union :
    (∀ (evts : List RelayInboundMessage), (∀ e ∈ evts, isStreamEvt e = true) →
      ∀ (sid : String),
        (sid ∈ (runInbound INITIAL_WORLD evts).state.activeStreams ↔
          lastStreamEvt evts sid = some true)) ∧
    (∀ (w : World) (rp : String) (sessionsOpt : Option (List SessionInfo))
        (idsOpt : Option (List String)) (sid : String),
      sid ∈ ((handleInbound w (.sessions_list rp sessionsOpt idsOpt)).1).state.activeStreams ↔
        (sid ∈ w.state.activeStreams ∨ sid ∈ idsOpt.getD [])) := by
  constructor
  · intro evts h sid
    rw [streams_membership sid evts INITIAL_WORLD h]
    simp [INITIAL_WORLD, INITIAL_STATE]
  · intro w rp so io sid
    simp only [handleInbound]
    exact mem_foldl_addStream _ _ _

/-- C2 witness: the amended theorem evaluated on the concrete sequence
start-end-start for `"s"`, and on a concrete `sessions_list` union. -/
theorem c2_streams_iff_and_sessions_list_union_witness :
    (("s" ∈ (runInbound INITIAL_WORLD
        [.stream_start "r" "s", .stream_end "r" "s", .stream_start "r" "s"]).state.activeStreams ↔
      lastStreamEvt [.stream_start "r" "s", .stream_end "r" "s", .stream_start "r" "s"] "s" =
        some true) ∧
     ("a" ∈ ((handleInbound INITIAL_WORLD
        (.sessions_list "r" (some []) (some ["a"]))).1).state.activeStreams ↔
      ("a" ∈ INITIAL_WORLD.state.activeStreams ∨ "a" ∈ (some ["a"] : Option (List String)).getD []))) :=
  ⟨c2_streams_iff_and_sessions_list_union.1 _ (by decide) "s",
   c2_streams_iff_and_sessions_list_union.2 INITIAL_WORLD "r" (some []) (some ["a"]) "a"⟩

/-- C3: feeding the deltas init, assistant(text "Hi"),
assistant(text " there" + tool_use t1/Read), result into the spec-modelled
stream assembler yields a single assistant message with concatenated text
"Hi there", exactly one tool block t1, and tool-appearance snapshot 2; a
duplicate delta carrying the same invocation id adds no second block. -/
theorem c3_stream_assembly_scenario :
    (StreamAssembler.runDeltas
        [.init, .assistant [.text "Hi"],
         .assistant [.text " there", .tool_use "t1" "Read"], .result] =
      [{ role := .assistant,
         content := .blocks [.text "Hi there", .tool_use "t1" "Read"],
         textLengthAtTools := some 2 }]) ∧
    (StreamAssembler.runDeltas
        [.init, .assistant [.text "Hi"],
         .assistant [.text " there", .tool_use "t1" "Read"],
         .assistant [.tool_use "t1" "Read"], .result] =
      [{ role := .assistant,
         content := .blocks [.text "Hi there", .tool_use "t1" "Read"],
         textLengthAtTools := some 2 }]) := by
  constructor <;> decide

/-- C4: segmenting user("go"), assistant(text "Sure" + tool_use t1), and a
tool-result message for t1 yields exactly a user item "go", an
assistant-text item "Sure", and one worklog whose single entry is t1 with
preceding context "Sure"; the tool_result message contributes no item. -/
theorem c4_segmenter_scenario :
    Part004.processMessages
      [{ role := .user, content := .str "go" },
       { role := .assistant, content := .blocks [.text "Sure", .tool_use "t1" "Read"] },
       { role := .user, content := .blocks [.tool_result "t1"] }] =
    [{ id := "user-0", type := .user, content := "go",
       originalMessage := some { role := .user, content := .str "go" } },
     { id := "exchange-0-initial", type := .assistantText, content := "Sure",
       originalMessage := some { role := .assistant, content := .blocks [.text "Sure", .tool_use "t1" "Read"] } },
     { id := "exchange-0-worklog", type := .worklog, content := "",
       worklogItems := [{ tool := .tool_use "t1" "Read", precedingContext := some "Sure", originalMessage := { role := .assistant, content := .blocks [.text "Sure", .tool_use "t1" "Read"] } }] }] := by
  decide

/-- C8 (counterexample): an `error` event whose repo is not the selected
one still changes the messages list — the handler appends the synthetic
system message unconditionally. -/
theorem c8_counterexample :
    ((handleInbound
        { INITIAL_WORLD with state :=
            { INITIAL_STATE with activeRepoPath := some "r", currentSessionId := some "s" } }
        (.error (some "other") "boom")).1).state.messages ≠
      ({ INITIAL_WORLD with state :=
          { INITIAL_STATE with activeRepoPath := some "r", currentSessionId := some "s" } } :
        World).state.messages := by
  decide

/-- C8 (amended): handling a relay `error` event always appends a
synthetic system message carrying the error text to the current messages
list, regardless of which repo or session is selected, and clears the
session-creation flags; no other state field changes. -/
theorem c8_error_appends_and_clears_flags (w : World) (rp : Option String) (msg : String) :
    ((handleInbound w (.error rp msg)).1).state =
      { w.state with
          messages := w.state.messages ++ [{ role := .system, content := .str msg }]
          isCreatingSession := false
          creatingSessionForRepo := none } :=
  rfl

/-- C9: `client_disconnected` removes the repo from the list; when the
removed path is the selected one it also clears the repo selection, the
session selection and the visible timeline, and otherwise every other
field of the state is left unchanged. -/
theorem c9_client_disconnected_frame (w : World) (rp : String) :
    ((handleInbound w (.client_disconnected rp)).1).state =
      (if w.state.activeRepoPath = some rp then
        { w.state with
            repos := w.state.repos.filter fun repo => repo.path != rp
            activeRepoPath := none
            currentSessionId := none
            messages := [] }
       else
        { w.state with repos := w.state.repos.filter fun repo => repo.path != rp }) := by
  by_cases h : w.state.activeRepoPath = some rp
  · simp [handleInbound, h]
  · have hb : (w.state.activeRepoPath == some rp) = false := by
      rw [beq_eq_false_iff_ne]
      exact h
    simp [handleInbound, h, hb]

/-- C5: `handleDisconnect` replaces the whole store by the initial state
except that `connectionStatus` becomes the given close/error status; the
tracked pending reconnect timer is cancelled and exactly one new 1500 ms
reconnect timer is pending afterwards, preserving the at-most-one-timer
invariant. -/
theorem c5_handleDisconnect_resets_and_schedules (w : World) (status : ConnectionStatus) :
    timerInv w →
      (handleDisconnect status w).state = { INITIAL_STATE with connectionStatus := status } ∧
      (handleDisconnect status w).reconnectTimers = [(w.nextTimerId, 1500)] ∧
      timerInv (handleDisconnect status w) := by
  rintro ⟨hlen, hall⟩
  have htimers : (handleDisconnect status w).reconnectTimers = [(w.nextTimerId, 1500)] := by
    show (match w.reconnectTimeout with
          | some h => w.reconnectTimers.filter fun t => t.1 != h
          | none => w.reconnectTimers) ++ [(w.nextTimerId, 1500)] = [(w.nextTimerId, 1500)]
    cases ht : w.reconnectTimeout with
    | none =>
      have hnil : w.reconnectTimers = [] := by
        cases hl : w.reconnectTimers with
        | nil => rfl
        | cons a l =>
          have ha := hall a (by rw [hl]; exact List.mem_cons_self a l)
          rw [ht] at ha
          exact absurd ha (by simp)
      simp [hnil]
    | some hdl =>
      have hnil : w.reconnectTimers.filter (fun t => t.1 != hdl) = [] := by
        rw [List.filter_eq_nil_iff]
        intro t htl
        have ha := hall t htl
        rw [ht] at ha
        have heq : t.1 = hdl := Option.some.inj ha
        simp [heq]
      simp [hnil]
  refine ⟨rfl, htimers, ?_, ?_⟩
  · rw [htimers]
    simp
  · intro t ht
    rw [htimers] at ht
    rw [List.mem_singleton] at ht
    rw [ht]
    rfl

/-- C5 witness: the theorem applied to the initial world and a `closed`
disconnect. -/
theorem c5_handleDisconnect_witness :
    timerInv INITIAL_WORLD ∧
      ((handleDisconnect .closed INITIAL_WORLD).state =
          { INITIAL_STATE with connectionStatus := .closed } ∧
        (handleDisconnect .closed INITIAL_WORLD).reconnectTimers =
          [(INITIAL_WORLD.nextTimerId, 1500)] ∧
        timerInv (handleDisconnect .closed INITIAL_WORLD)) := by
  have hinv : timerInv INITIAL_WORLD := by
    refine ⟨by decide, ?_⟩
    intro t ht
    simp [INITIAL_WORLD] at ht
  exact ⟨hinv, c5_handleDisconnect_resets_and_schedules INITIAL_WORLD .closed hinv⟩

/-- C7: `sendChatMessage` is a complete no-op — state, storage and wire
all untouched — whenever there is no selected repo, no selected session,
or the selected session is already streaming. -/
theorem c7_send_guard_rejects (w : World) (fresh content : String) :
    (w.state.activeRepoPath = none ∨ w.state.currentSessionId = none ∨
      ∃ sid, w.state.currentSessionId = some sid ∧ sid ∈ w.state.activeStreams) →
    sendChatMessage fresh content w = (w, []) := by
  intro h
  unfold sendChatMessage
  by_cases ht : (jsTrim content == "") = true
  · simp [ht]
  · simp only [ht, if_false]
    rcases h with h1 | h1 | ⟨sid, hs, hmem⟩
    · rw [h1]
      cases w.state.currentSessionId <;> rfl
    · rw [h1]
      cases w.state.activeRepoPath <;> rfl
    · rw [hs]
      cases w.state.activeRepoPath with
      | none => rfl
      | some rp =>
        have hc : w.state.activeStreams.contains sid = true := (contains_iff _ _).2 hmem
        simp [hc, hmem]

/-- C7 witness: the guard theorem evaluated on a world whose selected
session is mid-stream. -/
theorem c7_send_guard_rejects_witness :
    sendChatMessage "f" "hello"
        { INITIAL_WORLD with state := { INITIAL_STATE with activeRepoPath := some "r", currentSessionId := some "s", activeStreams := ["s"] } } =
      ({ INITIAL_WORLD with state := { INITIAL_STATE with activeRepoPath := some "r", currentSessionId := some "s", activeStreams := ["s"] } }, []) :=
  c7_send_guard_rejects _ "f" "hello" (Or.inr (Or.inr ⟨"s", by decide, by decide⟩))

/-- C6: a `session_history` snapshot for the selected session with a
(nonempty) pending record either re-appends one synthetic temp user
message carrying the pending text (when no user message of the snapshot
has string content equal to it), or drops the record and leaves the
timeline exactly equal to the snapshot (when one does). -/
theorem c6_session_history_pending (w : World) (rp lid : String)
    (snapshot : List ChatMessage) (p : String)
    (hsel : w.state.currentSessionId = some lid)
    (hpend : lookupPending w.storage lid = some p)
    (hp : p ≠ "") :
    (if snapshot.any (fun msg => msg.role == ChatRole.user && contentOrEmpty msg.content == p) then
      ((handleInbound w (.session_history rp lid (some snapshot))).1).state.messages = snapshot ∧
        lookupPending ((handleInbound w (.session_history rp lid (some snapshot))).1).storage lid = none
     else
      ((handleInbound w (.session_history rp lid (some snapshot))).1).state.messages =
          snapshot ++ [{ role := .user, content := .str p, uuid := some ("temp-pending-" ++ lid) }] ∧
        lookupPending ((handleInbound w (.session_history rp lid (some snapshot))).1).storage lid = some p) := by
  have hpb : (p == "") = false := beq_eq_false_iff_ne.mpr hp
  by_cases hfile :
      snapshot.any (fun msg => msg.role == ChatRole.user && contentOrEmpty msg.content == p) = true
  · rw [if_pos hfile]
    constructor
    · simp [handleInbound, sessionHistoryW, hsel, hpend, hpb, hfile]
    · simp [handleInbound, sessionHistoryW, hsel, hpend, hpb, hfile, lookupPending_remove]
  · rw [if_neg hfile]
    constructor
    · simp [handleInbound, sessionHistoryW, hsel, hpend, hpb, hfile]
    · simp [handleInbound, sessionHistoryW, hsel, hpend, hpb, hfile]

/-- C6 witness: an empty snapshot with pending text "hi" re-inserts the
synthetic temp message and keeps the record. -/
theorem c6_session_history_pending_witness :
    (if ([] : List ChatMessage).any (fun msg => msg.role == ChatRole.user && contentOrEmpty msg.content == "hi") then
      ((handleInbound { INITIAL_WORLD with state := { INITIAL_STATE with currentSessionId := some "s" }, storage := [("pending-message-s", "hi")] } (.session_history "r" "s" (some []))).1).state.messages = [] ∧
        lookupPending ((handleInbound { INITIAL_WORLD with state := { INITIAL_STATE with currentSessionId := some "s" }, storage := [("pending-message-s", "hi")] } (.session_history "r" "s" (some []))).1).storage "s" = none
     else
      ((handleInbound { INITIAL_WORLD with state := { INITIAL_STATE with currentSessionId := some "s" }, storage := [("pending-message-s", "hi")] } (.session_history "r" "s" (some []))).1).state.messages =
          [] ++ [{ role := .user, content := .str "hi", uuid := some ("temp-pending-" ++ "s") }] ∧
        lookupPending ((handleInbound { INITIAL_WORLD with state := { INITIAL_STATE with currentSessionId := some "s" }, storage := [("pending-message-s", "hi")] } (.session_history "r" "s" (some []))).1).storage "s" = some "hi") :=
  c6_session_history_pending
    { INITIAL_WORLD with state := { INITIAL_STATE with currentSessionId := some "s" }, storage := [("pending-message-s", "hi")] }
    "r" "s" [] "hi" (by decide) (by decide) (by decide)

theorem count_filter_of_dropped_ne {α : Type} [BEq α] [LawfulBEq α] (p : α → Bool) (e : α) :
    ∀ l : List α, (∀ m ∈ l, p m = false → m ≠ e) →
      List.count e (l.filter p) = List.count e l := by
  intro l
  induction l with
  | nil => intro _; rfl
  | cons m l ih =>
    intro h
    rw [List.filter_cons]
    by_cases hp : p m = true
    · rw [if_pos hp, List.count_cons, List.count_cons,
        ih (fun x hx => h x (List.mem_cons_of_mem _ hx))]
    · have hpf : p m = false := by
        cases hv : p m
        · rfl
        · exact absurd hv hp
      rw [if_neg hp, ih (fun x hx => h x (List.mem_cons_of_mem _ hx)), List.count_cons]
      have hne : (m == e) = false := beq_eq_false_iff_ne.mpr (h m (List.mem_cons_self _ _) hpf)
      simp [hne]

theorem count_dropTempUsers_nonuser (hU : Bool) (e : ChatMessage) (he : e.role ≠ .user)
    (M : List ChatMessage) : List.count e (dropTempUsers hU M) = List.count e M := by
  unfold dropTempUsers
  apply count_filter_of_dropped_ne
  intro m hm hpf heq
  by_cases hT : isTempMsg m = true
  · rw [hT] at hpf
    by_cases hB : (hU && m.role == ChatRole.user) = true
    · rw [Bool.and_eq_true] at hB
      exact he (heq ▸ beq_iff_eq.1 hB.2)
    · simp [hB] at hpf
  · have hF : isTempMsg m = false := by
      cases hv : isTempMsg m
      · rfl
      · exact absurd hv hT
    rw [hF] at hpf
    simp at hpf

/-- C10: in `session_update` handling for the selected session, the new
timeline is the temp-stripped previous list followed by the filtered
entries, where the duplicate filter only compares user-role entries
against the confirmed (non-temp) user contents: the occurrence count of
every assistant- or system-role entry grows by exactly its count in
`new_entries` — so such an entry is appended even when identical to a
message already present — and a user entry passes the filter iff its
content key is not among the confirmed user keys. -/
theorem c10_update_filter_only_users (w : World) (rp lid : String)
    (entries : List ChatMessage)
    (hsel : w.state.currentSessionId = some lid) :
    ((handleInbound w (.session_update rp lid (some entries))).1).state.messages =
        dropTempUsers (entries.any fun x => x.role == .user) w.state.messages ++
          entries.filter
            (keepEntry (confirmedUserKeys
              (dropTempUsers (entries.any fun x => x.role == .user) w.state.messages))) ∧
    (∀ e : ChatMessage, e.role ≠ .user →
      List.count e ((handleInbound w (.session_update rp lid (some entries))).1).state.messages =
        List.count e w.state.messages + List.count e entries) ∧
    (∀ e ∈ entries, e.role = .user →
      (e ∈ entries.filter
          (keepEntry (confirmedUserKeys
            (dropTempUsers (entries.any fun x => x.role == .user) w.state.messages))) ↔
        contentKey e.content ∉
          confirmedUserKeys
            (dropTempUsers (entries.any fun x => x.role == .user) w.state.messages))) := by
  have hred : ((handleInbound w (.session_update rp lid (some entries))).1).state.messages =
      dropTempUsers (entries.any fun x => x.role == .user) w.state.messages ++
        entries.filter
          (keepEntry (confirmedUserKeys
            (dropTempUsers (entries.any fun x => x.role == .user) w.state.messages))) := by
    simp [handleInbound, sessionUpdateW, hsel]
  refine ⟨hred, ?_, ?_⟩
  · intro e he
    have hkeep : keepEntry (confirmedUserKeys
        (dropTempUsers (entries.any fun x => x.role == .user) w.state.messages)) e = true := by
      unfold keepEntry
      have hb : (e.role != ChatRole.user) = true := bne_iff_ne.mpr he
      simp [hb]
    rw [hred, List.count_append, count_dropTempUsers_nonuser _ e he,
      List.count_filter hkeep]
  · intro e he hrole
    have hb : (e.role != ChatRole.user) = false := by simp [hrole]
    constructor
    · intro hmemF hmemK
      have hp := (List.mem_filter.1 hmemF).2
      unfold keepEntry at hp
      rw [hb] at hp
      simp at hp
      exact hp hmemK
    · intro hnot
      refine List.mem_filter.2 ⟨he, ?_⟩
      unfold keepEntry
      have hcont : ((confirmedUserKeys
          (dropTempUsers (entries.any fun x => x.role == .user) w.state.messages)).contains
            (contentKey e.content)) = false := by
        cases hx : ((confirmedUserKeys
            (dropTempUsers (entries.any fun x => x.role == .user) w.state.messages)).contains
              (contentKey e.content)) with
        | false => rfl
        | true => exact absurd ((contains_iff _ _).1 hx) hnot
      simp [hb, hcont]
      exact hnot

/-- C10 witness: an assistant entry identical to a message already in the
timeline is appended anyway — its occurrence count goes from 1 to 2. -/
theorem c10_update_filter_only_users_witness :
    List.count ({ role := .assistant, content := .str "hi" } : ChatMessage)
      ((handleInbound { INITIAL_WORLD with state := { INITIAL_STATE with currentSessionId := some "s", messages := [{ role := .assistant, content := .str "hi" }] } }
        (.session_update "r" "s" (some [{ role := .assistant, content := .str "hi" }]))).1).state.messages = 2 := by
  have h := (c10_update_filter_only_users
    { INITIAL_WORLD with state := { INITIAL_STATE with currentSessionId := some "s", messages := [{ role := .assistant, content := .str "hi" }] } }
    "r" "s" [{ role := .assistant, content := .str "hi" }] (by decide)).2.1
    { role := .assistant, content := .str "hi" } (by decide)
  exact h.trans (by decide)

theorem key_not_in_confirmed (A : List ChatMessage) (hU : Bool) (k : String)
    (h : ∀ m ∈ A, m.role = .user → contentKey m.content ≠ k) :
    k ∉ confirmedUserKeys (dropTempUsers hU A) := by
  intro hmem
  unfold confirmedUserKeys at hmem
  rw [List.mem_map] at hmem
  obtain ⟨m, hm, hkey⟩ := hmem
  rw [List.mem_filter] at hm
  obtain ⟨hm1, hm2⟩ := hm
  unfold dropTempUsers at hm1
  rw [List.mem_filter] at hm1
  rw [Bool.and_eq_true] at hm2
  exact h m hm1.1 (beq_iff_eq.1 hm2.1) hkey

theorem filter_key_users_nil (A : List ChatMessage) (hU : Bool) (k : String)
    (h : ∀ m ∈ A, m.role = .user → contentKey m.content ≠ k) :
    (dropTempUsers hU A).filter
      (fun m => m.role == ChatRole.user && contentKey m.content == k) = [] := by
  rw [List.filter_eq_nil_iff]
  intro m hm
  unfold dropTempUsers at hm
  rw [List.mem_filter] at hm
  intro hc
  rw [Bool.and_eq_true] at hc
  exact h m hm.1 (beq_iff_eq.1 hc.1) (beq_iff_eq.1 hc.2)

theorem mem_dropTempUsers_user_not_temp (A : List ChatMessage) (m : ChatMessage)
    (hm : m ∈ dropTempUsers true A) (hrole : m.role = .user) : isTempMsg m = false := by
  unfold dropTempUsers at hm
  rw [List.mem_filter] at hm
  have hp := hm.2
  cases hT : isTempMsg m with
  | false => rfl
  | true =>
    rw [hT] at hp
    have hb : (m.role == ChatRole.user) = true := beq_iff_eq.2 hrole
    simp [hb] at hp

/-- C1: from a state where session `sid` is selected, not streaming, and
whose timeline has no user message with content "hello", sending "hello"
appends exactly one temp-uuid user message and records the durable pending
text; a following `session_update` delivering the confirmed "hello" user
message removes every temp-uuid user message, leaves exactly one confirmed
"hello" user message, and clears the pending record. -/
theorem c1_send_then_update_reconciles (w : World) (r sid fresh u : String)
    (h1 : w.state.activeRepoPath = some r)
    (h2 : w.state.currentSessionId = some sid)
    (h3 : sid ∉ w.state.activeStreams)
    (h4 : lookupPending w.storage sid = none)
    (h5 : ∀ m ∈ w.state.messages, m.role = .user → contentKey m.content ≠ "hello")
    (h6 : strStartsWith u "temp-" = false)
    (h7 : r ≠ "") (h8 : sid ≠ "") :
    ((sendChatMessage fresh "hello" w).1.state.messages =
        w.state.messages ++ [{ role := .user, content := .str "hello", uuid := some ("temp-" ++ fresh) }] ∧
      lookupPending (sendChatMessage fresh "hello" w).1.storage sid = some "hello") ∧
    ((∀ m ∈ ((handleInbound (sendChatMessage fresh "hello" w).1
          (.session_update r sid (some [{ role := .user, content := .str "hello", uuid := some u }]))).1).state.messages,
        m.role = .user → isTempMsg m = false) ∧
      (((handleInbound (sendChatMessage fresh "hello" w).1
          (.session_update r sid (some [{ role := .user, content := .str "hello", uuid := some u }]))).1).state.messages.filter
          (fun m => m.role == ChatRole.user && contentKey m.content == "hello")).length = 1 ∧
      lookupPending ((handleInbound (sendChatMessage fresh "hello" w).1
          (.session_update r sid (some [{ role := .user, content := .str "hello", uuid := some u }]))).1).storage sid = none) := by
  have hr : (r == "") = false := beq_eq_false_iff_ne.mpr h7
  have hs : (sid == "") = false := beq_eq_false_iff_ne.mpr h8
  have hc : w.state.activeStreams.contains sid = false := by
    rw [← Bool.not_eq_true]
    intro hb
    exact h3 ((contains_iff _ _).1 hb)
  have htr : jsTrim "hello" = "hello" := by decide
  have ht : (jsTrim "hello" == "") = false := by decide
  have hsend : sendChatMessage fresh "hello" w =
      ({ w with
          state := { w.state with messages := w.state.messages ++
            [{ role := .user, content := .str "hello", uuid := some ("temp-" ++ fresh) }] }
          storage := setPending w.storage sid "hello" },
       [.send_message r (some sid) "hello" w.state.selectedModel]) := by
    simp [sendChatMessage, h1, h2, htr, ht, hr, hs, hc, h3]
  rw [hsend]
  have htemp : isTempMsg { role := .user, content := .str "hello", uuid := some ("temp-" ++ fresh) } = true :=
    strStartsWith_append "temp-" fresh
  have hdrop : dropTempUsers true (w.state.messages ++
      [{ role := .user, content := .str "hello", uuid := some ("temp-" ++ fresh) }]) =
      dropTempUsers true w.state.messages := by
    unfold dropTempUsers
    rw [List.filter_append]
    simp [htemp]
  have hkeepE : keepEntry (confirmedUserKeys (dropTempUsers true w.state.messages))
      { role := .user, content := .str "hello", uuid := some u } = true := by
    unfold keepEntry
    have hb1 : (ChatRole.user != ChatRole.user) = false := by decide
    have hb2 : ((confirmedUserKeys (dropTempUsers true w.state.messages)).contains "hello") = false := by
      cases hx : ((confirmedUserKeys (dropTempUsers true w.state.messages)).contains "hello") with
      | false => rfl
      | true => exact absurd ((contains_iff _ _).1 hx) (key_not_in_confirmed _ _ _ h5)
    simp [hb1, hb2]
    exact key_not_in_confirmed _ _ _ h5
  have hmsgs : ((handleInbound
      ({ w with
          state := { w.state with messages := w.state.messages ++
            [{ role := .user, content := .str "hello", uuid := some ("temp-" ++ fresh) }] }
          storage := setPending w.storage sid "hello" } : World)
      (.session_update r sid (some [{ role := .user, content := .str "hello", uuid := some u }]))).1).state.messages =
      dropTempUsers true w.state.messages ++
        [{ role := .user, content := .str "hello", uuid := some u }] := by
    simp only [handleInbound, sessionUpdateW]
    rw [if_pos h2]
    show dropTempUsers true (w.state.messages ++
        [{ role := .user, content := .str "hello", uuid := some ("temp-" ++ fresh) }]) ++
      List.filter (keepEntry (confirmedUserKeys (dropTempUsers true (w.state.messages ++
        [{ role := .user, content := .str "hello", uuid := some ("temp-" ++ fresh) }]))))
        [{ role := .user, content := .str "hello", uuid := some u }] = _
    rw [hdrop]
    simp [List.filter_cons, hkeepE]
  have hstor : ((handleInbound
      ({ w with
          state := { w.state with messages := w.state.messages ++
            [{ role := .user, content := .str "hello", uuid := some ("temp-" ++ fresh) }] }
          storage := setPending w.storage sid "hello" } : World)
      (.session_update r sid (some [{ role := .user, content := .str "hello", uuid := some u }]))).1).storage =
      removePending (setPending w.storage sid "hello") sid := by
    simp only [handleInbound, sessionUpdateW]
    rw [if_pos h2]
    rfl
  refine ⟨⟨rfl, lookupPending_set w.storage sid "hello"⟩, ?_, ?_, ?_⟩
  · intro m hm hrole
    rw [hmsgs] at hm
    rcases List.mem_append.1 hm with hm1 | hm1
    · exact mem_dropTempUsers_user_not_temp w.state.messages m hm1 hrole
    · rw [List.mem_singleton] at hm1
      rw [hm1]
      show strStartsWith u "temp-" = false
      exact h6
  · rw [hmsgs]
    rw [List.filter_append]
    rw [filter_key_users_nil w.state.messages true "hello" h5]
    rfl
  · rw [hstor]
    exact lookupPending_remove _ sid

/-- C1 witness: the reconciliation theorem evaluated from a minimal world
with session "s" selected. -/
theorem c1_send_then_update_reconciles_witness :
    ((sendChatMessage "f" "hello" { INITIAL_WORLD with state := { INITIAL_STATE with activeRepoPath := some "r", currentSessionId := some "s" } }).1.state.messages =
        ({ INITIAL_WORLD with state := { INITIAL_STATE with activeRepoPath := some "r", currentSessionId := some "s" } } : World).state.messages ++ [{ role := .user, content := .str "hello", uuid := some ("temp-" ++ "f") }] ∧
      lookupPending (sendChatMessage "f" "hello" { INITIAL_WORLD with state := { INITIAL_STATE with activeRepoPath := some "r", currentSessionId := some "s" } }).1.storage "s" = some "hello") ∧
    ((∀ m ∈ ((handleInbound (sendChatMessage "f" "hello" { INITIAL_WORLD with state := { INITIAL_STATE with activeRepoPath := some "r", currentSessionId := some "s" } }).1
          (.session_update "r" "s" (some [{ role := .user, content := .str "hello", uuid := some "u1" }]))).1).state.messages,
        m.role = .user → isTempMsg m = false) ∧
      (((handleInbound (sendChatMessage "f" "hello" { INITIAL_WORLD with state := { INITIAL_STATE with activeRepoPath := some "r", currentSessionId := some "s" } }).1
          (.session_update "r" "s" (some [{ role := .user, content := .str "hello", uuid := some "u1" }]))).1).state.messages.filter
          (fun m => m.role == ChatRole.user && contentKey m.content == "hello")).length = 1 ∧
      lookupPending ((handleInbound (sendChatMessage "f" "hello" { INITIAL_WORLD with state := { INITIAL_STATE with activeRepoPath := some "r", currentSessionId := some "s" } }).1
          (.session_update "r" "s" (some [{ role := .user, content := .str "hello", uuid := some "u1" }]))).1).storage "s" = none) :=
  c1_send_then_update_reconciles
    { INITIAL_WORLD with state := { INITIAL_STATE with activeRepoPath := some "r", currentSessionId := some "s" } }
    "r" "s" "f" "u1" (by decide) (by decide) (by decide) (by decide) (by decide)
    (by decide) (by decide) (by decide)
